import Mathlib

/-!
Verification development for the QuizGen repository (src/App.jsx).

The application is a single-file React client over a Firestore document
store.  We give a shallow embedding of its quiz-room state machine:

- the Room document stored at artifacts/.../quizRooms/CODE, with its
  nested players map, is modelled as a Lean structure whose players
  field is an association list keyed by participant identifier;
- the Firestore database is an association list from room code to Room;
- each handler (handleCreateQuiz, handleJoinQuiz, handleStartQuiz,
  handleAnswerSubmit) is translated into a pure function on that state;
- the session controller of a client on the quiz page is modelled as a
  transition system over the single cooperative event loop: option and
  submit clicks, interval ticks, re-runs of the countdown effect and
  acknowledgements of awaited store writes are its events, and every
  submission is split at its awaited updateDoc into a synchronous
  prefix and a resumption, because the code advances the question
  index only after that await resolves.

JS strings are Lean String (the random base-36 representation used by
generateRoomCode is modelled as a list of characters), JS numbers that
hold scores are Nat, the per-question timer value is Int.
-/

/-- Quiz status values stored in the status field of a room document:
the strings lobby, in-progress and finished. -/
inductive Status where
  | lobby
  | inProgress
  | finished
deriving DecidableEq, BEq

/-- One answer record, as built in handleAnswerSubmit:
{ questionIndex, answer, isCorrect }. -/
structure Answer where
  questionIndex : Nat
  answer : String
  isCorrect : Bool
deriving DecidableEq

/-- One player entry of the players map:
{ id, name, score, answers }. -/
structure Player where
  id : String
  name : String
  score : Nat
  answers : List Answer
deriving DecidableEq

/-- One generated question: { question, options, correctAnswer,
explanation }. -/
structure Question where
  question : String
  options : List String
  correctAnswer : String
  explanation : String
deriving DecidableEq

/-- The room document built by handleCreateQuiz.  The players map is an
association list from participant identifier to Player. -/
structure Room where
  topic : String
  difficulty : String
  timer : Int
  status : Status
  hostId : String
  createdAt : Nat
  questions : List Question
  players : List (String × Player)
deriving DecidableEq

/-- Lookup of players[uid] in the nested players map. -/
def lookupPlayer : List (String × Player) → String → Option Player
  | [], _ => none
  | (k, p) :: rest, uid => if k = uid then some p else lookupPlayer rest uid

/-- Firestore dotted-path write of the whole value players.uid, as used
by handleJoinQuiz: replaces the entry when the key is present, creates
it otherwise. -/
def upsertPlayer : List (String × Player) → String → Player → List (String × Player)
  | [], uid, pl => [(uid, pl)]
  | (k, p) :: rest, uid, pl =>
      if k = uid then (k, pl) :: rest else (k, p) :: upsertPlayer rest uid pl

/-- Firestore dotted-path write of the two fields players.uid.answers and
players.uid.score, as used by handleAnswerSubmit: when the key is present
only those two fields change; when it is absent a fresh nested entry is
created (the id and name fields are not set by that write; we model the
created entry with id equal to the key and an empty name). -/
def writePlayerFields : List (String × Player) → String → List Answer → Nat → List (String × Player)
  | [], uid, ans, sc => [(uid, { id := uid, name := "", score := sc, answers := ans })]
  | (k, p) :: rest, uid, ans, sc =>
      if k = uid then (k, { p with answers := ans, score := sc }) :: rest
      else (k, p) :: writePlayerFields rest uid ans sc

/-- Lookup of the room document stored at a given code. -/
def lookupRoom : List (String × Room) → String → Option Room
  | [], _ => none
  | (k, r) :: rest, code => if k = code then some r else lookupRoom rest code

/-- setDoc semantics at a room code: overwrites the document when the
code is already present, creates it otherwise. -/
def setRoom : List (String × Room) → String → Room → List (String × Room)
  | [], code, r => [(code, r)]
  | (k, r0) :: rest, code, r =>
      if k = code then (k, r) :: rest else (k, r0) :: setRoom rest code r

/-- handleAnswerSubmit from src/App.jsx, lines 285-311.  The first
argument is the quizData snapshot the client last observed; the second
is the room document currently stored (the target of the two updateDoc
calls).  The result is the stored document after the writes together
with the new local userAnswers list, or none when currentQuestionIndex
is out of range of the snapshot (the JS code would then fail reading
currentQuestion.correctAnswer, before any write). -/
def handleAnswerSubmit (quizData stored : Room) (userId : String)
    (currentQuestionIndex : Nat) (userAnswers : List Answer) (answer : String) :
    Option (Room × List Answer) :=
  match quizData.questions[currentQuestionIndex]? with
  | none => none
  | some currentQuestion =>
    let isCorrect : Bool := answer == currentQuestion.correctAnswer
    let scoreIncrement : Nat := if isCorrect then 10 else 0
    let newAnswer : Answer :=
      { questionIndex := currentQuestionIndex, answer := answer, isCorrect := isCorrect }
    let updatedAnswers := userAnswers ++ [newAnswer]
    let currentScore : Nat := ((lookupPlayer quizData.players userId).map Player.score).getD 0
    let afterScoreWrite : Room :=
      { stored with
          players := writePlayerFields stored.players userId updatedAnswers
            (currentScore + scoreIncrement) }
    if currentQuestionIndex < quizData.questions.length - 1 then
      some (afterScoreWrite, updatedAnswers)
    else
      some ({ afterScoreWrite with status := .finished }, updatedAnswers)

/-- A concrete question used by witnesses. -/
def demoQuestion : Question :=
  { question := "2+2?", options := ["1", "2", "3", "4"], correctAnswer := "4",
    explanation := "arithmetic" }

/-- A concrete player used by witnesses. -/
def demoPlayer : Player := { id := "host", name := "Ada", score := 0, answers := [] }

/-- A concrete one-question room in progress, used by the C1 witness. -/
def demoRoomC1 : Room :=
  { topic := "math", difficulty := "Easy", timer := 30, status := .inProgress,
    hostId := "host", createdAt := 0, questions := [demoQuestion],
    players := [("host", demoPlayer)] }

/-- A concrete two-question room in progress, used by the C3 and C10
witnesses as the snapshot. -/
def demoRoomC3 : Room :=
  { topic := "math", difficulty := "Easy", timer := 30, status := .inProgress,
    hostId := "host", createdAt := 0, questions := [demoQuestion, demoQuestion],
    players := [("host", demoPlayer)] }

/-- A stored room whose host score differs from the snapshot, used by
the C10 witness as the currently stored document. -/
def demoRoomStale : Room :=
  { demoRoomC3 with
      players := [("host", { id := "host", name := "Ada", score := 999, answers := [] })] }

/-- Any submission at the last question index of the snapshot succeeds
and leaves the stored room with status finished, whatever the stored
room held before. -/
theorem handleAnswerSubmit_last (quizData stored : Room) (userId : String)
    (userAnswers : List Answer) (answer : String)
    (h : quizData.questions ≠ []) :
    ∃ r ua,
      handleAnswerSubmit quizData stored userId
        (quizData.questions.length - 1) userAnswers answer = some (r, ua) ∧
      r.status = .finished := by
  have hpos : 0 < quizData.questions.length := List.length_pos.mpr h
  have hlt : quizData.questions.length - 1 < quizData.questions.length := by omega
  have hq := List.getElem?_eq_getElem hlt
  unfold handleAnswerSubmit
  rw [hq]
  simp only
  rw [if_neg (by omega)]
  exact ⟨_, _, rfl, rfl⟩

/-- Claim C1: for every room and every player, calling submitAnswer with
questionIndex equal to the last index of the question sequence of the
room sets the status of the room to finished, and a second such call by
the same or another player racing on the same last question leaves the
status equal to finished: the write is idempotent with respect to the
status field. -/
theorem submitAnswer_last_index_finishes (quizData stored : Room) (userId : String)
    (userAnswers : List Answer) (answer : String)
    (h : quizData.questions ≠ []) :
    ∃ r ua,
      handleAnswerSubmit quizData stored userId
        (quizData.questions.length - 1) userAnswers answer = some (r, ua) ∧
      r.status = .finished ∧
      ∀ (quizData2 : Room) (userId2 : String) (ua2 : List Answer) (answer2 : String),
        quizData2.questions ≠ [] →
        ∃ r2 ua2',
          handleAnswerSubmit quizData2 r userId2
            (quizData2.questions.length - 1) ua2 answer2 = some (r2, ua2') ∧
          r2.status = .finished := by
  obtain ⟨r, ua, heq, hst⟩ := handleAnswerSubmit_last quizData stored userId userAnswers answer h
  exact ⟨r, ua, heq, hst, fun q2 u2 a2 ans2 h2 => handleAnswerSubmit_last q2 r u2 a2 ans2 h2⟩

/-- Characterization of a successful handleAnswerSubmit call: the score
and answers of the calling player are overwritten in the stored room
with values computed from the snapshot, and status becomes finished
exactly when the index is the last one of the snapshot. -/
theorem handleAnswerSubmit_some (quizData stored : Room) (userId : String) (qIdx : Nat)
    (ua : List Answer) (answer : String) (q : Question)
    (hq : quizData.questions[qIdx]? = some q) :
    handleAnswerSubmit quizData stored userId qIdx ua answer =
      some
        ({ stored with
             players :=
               writePlayerFields stored.players userId
                 (ua ++ [{ questionIndex := qIdx, answer := answer,
                           isCorrect := answer == q.correctAnswer }])
                 (((lookupPlayer quizData.players userId).map Player.score).getD 0 +
                   (if answer == q.correctAnswer then 10 else 0)),
             status :=
               if qIdx < quizData.questions.length - 1 then stored.status else .finished },
         ua ++ [{ questionIndex := qIdx, answer := answer,
                  isCorrect := answer == q.correctAnswer }]) := by
  unfold handleAnswerSubmit
  rw [hq]
  by_cases hlt : qIdx < quizData.questions.length - 1 <;> simp [hlt]

/-- The dotted-path write of score and answers always leaves the written
score at the written key, whether or not the key was present before. -/
theorem score_writePlayerFields (ps : List (String × Player)) (uid : String)
    (ans : List Answer) (sc : Nat) :
    (lookupPlayer (writePlayerFields ps uid ans sc) uid).map Player.score = some sc := by
  induction ps with
  | nil => simp [writePlayerFields, lookupPlayer]
  | cons kp rest ih =>
    obtain ⟨k, p⟩ := kp
    by_cases hk : k = uid <;> simp [writePlayerFields, lookupPlayer, hk, ih]

/-- When the written key is already present, the dotted-path write of
score and answers changes only those two fields of that entry. -/
theorem lookupPlayer_writePlayerFields_of_mem (ps : List (String × Player)) (uid : String)
    (p : Player) (ans : List Answer) (sc : Nat)
    (h : lookupPlayer ps uid = some p) :
    lookupPlayer (writePlayerFields ps uid ans sc) uid =
      some { p with answers := ans, score := sc } := by
  induction ps with
  | nil => simp [lookupPlayer] at h
  | cons kp rest ih =>
    obtain ⟨k, p'⟩ := kp
    by_cases hk : k = uid
    · subst hk
      simp [lookupPlayer] at h
      subst h
      simp [writePlayerFields, lookupPlayer]
    · simp [lookupPlayer, hk] at h
      simp [writePlayerFields, lookupPlayer, hk]
      exact ih h

/-- Claim C3: for every room in progress, player present in the players
map, and in-range question index, submitAnswer computes isCorrect as
exact string equality with the correctAnswer of that question, adds 10
to the score of the calling player when correct and 0 otherwise, and
appends the new Answer record to the answers sequence of that player. -/
theorem submitAnswer_scoring (room : Room) (userId : String) (qIdx : Nat)
    (q : Question) (p : Player) (answer : String)
    (_hst : room.status = .inProgress)
    (hq : room.questions[qIdx]? = some q)
    (hp : lookupPlayer room.players userId = some p) :
    ∃ r ua,
      handleAnswerSubmit room room userId qIdx p.answers answer = some (r, ua) ∧
      ua = p.answers ++ [{ questionIndex := qIdx, answer := answer,
                           isCorrect := answer == q.correctAnswer }] ∧
      lookupPlayer r.players userId =
        some { p with
                 score := p.score + (if answer == q.correctAnswer then 10 else 0),
                 answers := p.answers ++ [{ questionIndex := qIdx, answer := answer,
                                            isCorrect := answer == q.correctAnswer }] } ∧
      ((answer == q.correctAnswer) = true ↔ answer = q.correctAnswer) := by
  refine ⟨_, _, handleAnswerSubmit_some room room userId qIdx p.answers answer q hq, rfl, ?_, ?_⟩
  · have hw := lookupPlayer_writePlayerFields_of_mem room.players userId p
      (p.answers ++ [{ questionIndex := qIdx, answer := answer,
                       isCorrect := answer == q.correctAnswer }])
      (((lookupPlayer room.players userId).map Player.score).getD 0 +
        (if answer == q.correctAnswer then 10 else 0)) hp
    simpa [hp] using hw
  · exact beq_iff_eq

theorem submitAnswer_scoring_witness :
    demoRoomC3.status = .inProgress ∧
    demoRoomC3.questions[0]? = some demoQuestion ∧
    lookupPlayer demoRoomC3.players "host" = some demoPlayer ∧
    ∃ r ua,
      handleAnswerSubmit demoRoomC3 demoRoomC3 "host" 0 demoPlayer.answers "4" = some (r, ua) ∧
      ua = demoPlayer.answers ++ [{ questionIndex := 0, answer := "4",
                                    isCorrect := "4" == demoQuestion.correctAnswer }] ∧
      lookupPlayer r.players "host" =
        some { demoPlayer with
                 score := demoPlayer.score + (if "4" == demoQuestion.correctAnswer then 10 else 0),
                 answers := demoPlayer.answers ++
                   [{ questionIndex := 0, answer := "4",
                      isCorrect := "4" == demoQuestion.correctAnswer }] } ∧
      (("4" == demoQuestion.correctAnswer) = true ↔ "4" = demoQuestion.correctAnswer) :=
  ⟨by decide, by decide, by decide,
   submitAnswer_scoring demoRoomC3 "host" 0 demoQuestion demoPlayer "4"
     (by decide) (by decide) (by decide)⟩

/-- Claim C10: submitAnswer writes the stored score of the calling
player as an overwrite, computed as the score found in the snapshot the
caller last observed plus the award, defaulting to 0 when the player is
absent from that snapshot, independently of the value currently stored
(the stored room is universally quantified and its score does not occur
in the written value). -/
theorem submitAnswer_score_overwrite (quizData stored : Room) (userId : String) (qIdx : Nat)
    (ua : List Answer) (answer : String) (q : Question)
    (hq : quizData.questions[qIdx]? = some q) :
    ∃ r ua',
      handleAnswerSubmit quizData stored userId qIdx ua answer = some (r, ua') ∧
      (lookupPlayer r.players userId).map Player.score =
        some (((lookupPlayer quizData.players userId).map Player.score).getD 0 +
          (if answer == q.correctAnswer then 10 else 0)) := by
  refine ⟨_, _, handleAnswerSubmit_some quizData stored userId qIdx ua answer q hq, ?_⟩
  simpa using score_writePlayerFields stored.players userId _ _

theorem submitAnswer_score_overwrite_witness :
    demoRoomC3.questions[0]? = some demoQuestion ∧
    ∃ r ua',
      handleAnswerSubmit demoRoomC3 demoRoomStale "host" 0 [] "4" = some (r, ua') ∧
      (lookupPlayer r.players "host").map Player.score =
        some (((lookupPlayer demoRoomC3.players "host").map Player.score).getD 0 +
          (if "4" == demoQuestion.correctAnswer then 10 else 0)) :=
  ⟨by decide,
   submitAnswer_score_overwrite demoRoomC3 demoRoomStale "host" 0 [] "4" demoQuestion (by decide)⟩

theorem submitAnswer_last_index_finishes_witness :
    demoRoomC1.questions ≠ [] ∧
    ∃ r ua,
      handleAnswerSubmit demoRoomC1 demoRoomC1 "host"
        (demoRoomC1.questions.length - 1) [] "4" = some (r, ua) ∧
      r.status = .finished ∧
      ∀ (quizData2 : Room) (userId2 : String) (ua2 : List Answer) (answer2 : String),
        quizData2.questions ≠ [] →
        ∃ r2 ua2',
          handleAnswerSubmit quizData2 r userId2
            (quizData2.questions.length - 1) ua2 answer2 = some (r2, ua2') ∧
          r2.status = .finished :=
  ⟨by decide, submitAnswer_last_index_finishes demoRoomC1 demoRoomC1 "host" [] "4" (by decide)⟩

/-- Error conditions surfaced by the handlers: the thrown messages of
handleJoinQuiz and the generation failure of generateAIQuestions. -/
inductive QuizError where
  | notFound
  | alreadyStarted
  | generationFailed
deriving DecidableEq

/-- Validation performed by generateAIQuestions on the parsed generator
output (src/App.jsx lines 201-211): the input is none when JSON.parse
failed or the response was not an array, otherwise the parsed list.
The only accepted outputs are non-empty lists; no per-question check is
made. -/
def generateAIQuestions (parsedJson : Option (List Question)) :
    Except QuizError (List Question) :=
  match parsedJson with
  | some qs => if qs.length > 0 then .ok qs else .error .generationFailed
  | none => .error .generationFailed

/-- The room document built by handleCreateQuiz before setDoc. -/
def newQuizRoom (topic difficulty : String) (timer : Int) (userId : String)
    (createdAt : Nat) (questions : List Question) (hostName : String) : Room :=
  { topic := topic, difficulty := difficulty, timer := timer, status := .lobby,
    hostId := userId, createdAt := createdAt, questions := questions,
    players := [(userId, { id := userId, name := hostName, score := 0, answers := [] })] }

/-- handleCreateQuiz from src/App.jsx, lines 215-243: generates a fresh
room code (passed in here, with the parsed generator output), builds the
room document and stores it with setDoc; on generation failure nothing
is written and the error is surfaced. -/
def handleCreateQuiz (db : List (String × Room)) (newRoomCode : String)
    (parsedJson : Option (List Question)) (topic difficulty : String) (timer : Int)
    (userId hostName : String) (createdAt : Nat) :
    List (String × Room) × Option QuizError :=
  match generateAIQuestions parsedJson with
  | .error e => (db, some e)
  | .ok generatedQuestions =>
      (setRoom db newRoomCode
        (newQuizRoom topic difficulty timer userId createdAt generatedQuestions hostName),
       none)

/-- handleJoinQuiz from src/App.jsx, lines 245-271: reads the room at
the given code; throws when it is absent or its status is not lobby (in
both cases before any write, so the database is returned unchanged);
otherwise writes the whole players.userId entry with a fresh player. -/
def handleJoinQuiz (db : List (String × Room)) (roomCode userId playerName : String) :
    List (String × Room) × Option QuizError :=
  match lookupRoom db roomCode with
  | some roomData =>
      if roomData.status ≠ .lobby then (db, some .alreadyStarted)
      else
        let newPlayer : Player := { id := userId, name := playerName, score := 0, answers := [] }
        (setRoom db roomCode { roomData with players := upsertPlayer roomData.players userId newPlayer },
         none)
  | none => (db, some .notFound)

/-- Reading back a room code right after setRoom yields the document
just written. -/
theorem lookupRoom_setRoom (db : List (String × Room)) (code : String) (r : Room) :
    lookupRoom (setRoom db code r) code = some r := by
  induction db with
  | nil => simp [setRoom, lookupRoom]
  | cons kr rest ih =>
    obtain ⟨k, r0⟩ := kr
    by_cases hk : k = code <;> simp [setRoom, lookupRoom, hk, ih]

/-- Upserting a player and looking up the same identifier yields the
upserted entry. -/
theorem lookupPlayer_upsertPlayer (ps : List (String × Player)) (uid : String) (pl : Player) :
    lookupPlayer (upsertPlayer ps uid pl) uid = some pl := by
  induction ps with
  | nil => simp [upsertPlayer, lookupPlayer]
  | cons kp rest ih =>
    obtain ⟨k, p⟩ := kp
    by_cases hk : k = uid <;> simp [upsertPlayer, lookupPlayer, hk, ih]

/-- Claim C4: joinRoom on a room whose status is not lobby fails with
the already-started error and returns the database unchanged (so the
players map and the rest of the room document are untouched); joinRoom
on an absent room code fails with the not-found error, also leaving the
database unchanged. -/
theorem joinRoom_errors (db : List (String × Room)) (code userId playerName : String) :
    (∀ r, lookupRoom db code = some r → r.status ≠ .lobby →
        handleJoinQuiz db code userId playerName = (db, some .alreadyStarted)) ∧
    (lookupRoom db code = none →
        handleJoinQuiz db code userId playerName = (db, some .notFound)) := by
  constructor
  · intro r hr hst
    unfold handleJoinQuiz
    rw [hr]
    simp [hst]
  · intro hr
    unfold handleJoinQuiz
    rw [hr]

/-- A finished room, used by the C4 witness. -/
def demoFinishedRoom : Room := { demoRoomC1 with status := .finished }

/-- A database holding the finished room at code START, used by the C4
witness. -/
def demoDbC4 : List (String × Room) := [("START", demoFinishedRoom)]

theorem joinRoom_errors_witness :
    (lookupRoom demoDbC4 "START" = some demoFinishedRoom ∧
      demoFinishedRoom.status ≠ .lobby ∧
      handleJoinQuiz demoDbC4 "START" "bo" "Bo" = (demoDbC4, some .alreadyStarted)) ∧
    (lookupRoom demoDbC4 "ZZZZZ" = none ∧
      handleJoinQuiz demoDbC4 "ZZZZZ" "bo" "Bo" = (demoDbC4, some .notFound)) :=
  ⟨⟨by decide, by decide,
    (joinRoom_errors demoDbC4 "START" "bo" "Bo").1 demoFinishedRoom (by decide) (by decide)⟩,
   ⟨by decide, (joinRoom_errors demoDbC4 "ZZZZZ" "bo" "Bo").2 (by decide)⟩⟩

/-- Claim C6: after a successful createRoom call, reading the returned
code yields a room whose status is lobby and whose players map is
exactly the singleton host entry with score 0 and no answers. -/
theorem createRoom_initial_state (db db' : List (String × Room)) (newRoomCode : String)
    (parsedJson : Option (List Question)) (topic difficulty : String) (timer : Int)
    (userId hostName : String) (createdAt : Nat)
    (h : handleCreateQuiz db newRoomCode parsedJson topic difficulty timer
          userId hostName createdAt = (db', none)) :
    ∃ room, lookupRoom db' newRoomCode = some room ∧
      room.status = .lobby ∧
      room.players = [(userId, { id := userId, name := hostName, score := 0, answers := [] })] := by
  unfold handleCreateQuiz at h
  match hgen : generateAIQuestions parsedJson with
  | .error e =>
      rw [hgen] at h
      exact (Option.some_ne_none e (congrArg Prod.snd h)).elim
  | .ok qs =>
      rw [hgen] at h
      have hdb : db' = setRoom db newRoomCode
          (newQuizRoom topic difficulty timer userId createdAt qs hostName) :=
        (congrArg Prod.fst h).symm
      subst hdb
      exact ⟨_, lookupRoom_setRoom _ _ _, rfl, rfl⟩

theorem createRoom_initial_state_witness :
    handleCreateQuiz [] "ABCDE" (some [demoQuestion]) "math" "Easy" 30 "host" "Ada" 0 =
      (setRoom [] "ABCDE" (newQuizRoom "math" "Easy" 30 "host" 0 [demoQuestion] "Ada"), none) ∧
    ∃ room,
      lookupRoom (setRoom [] "ABCDE" (newQuizRoom "math" "Easy" 30 "host" 0 [demoQuestion] "Ada"))
        "ABCDE" = some room ∧
      room.status = .lobby ∧
      room.players = [("host", { id := "host", name := "Ada", score := 0, answers := [] })] :=
  ⟨by decide,
   createRoom_initial_state [] _ "ABCDE" (some [demoQuestion]) "math" "Easy" 30 "host" "Ada" 0
     (by decide)⟩

/-- Claim C7: joining a lobby room with a participant identifier that is
already present replaces the existing player entry with a fresh one
whose score is 0 and whose answers list is empty, with no merge. -/
theorem joinRoom_rejoin_resets (db : List (String × Room)) (code userId playerName : String)
    (room : Room) (oldP : Player)
    (hr : lookupRoom db code = some room)
    (hst : room.status = .lobby)
    (_hp : lookupPlayer room.players userId = some oldP) :
    ∃ db' room',
      handleJoinQuiz db code userId playerName = (db', none) ∧
      lookupRoom db' code = some room' ∧
      lookupPlayer room'.players userId =
        some { id := userId, name := playerName, score := 0, answers := [] } := by
  unfold handleJoinQuiz
  rw [hr]
  simp only
  rw [if_neg (by simp [hst])]
  exact ⟨_, _, rfl, lookupRoom_setRoom _ _ _, lookupPlayer_upsertPlayer _ _ _⟩

/-- A lobby room with a host already joined, stored at code START. -/
def demoDbC7 : List (String × Room) :=
  [("START", { demoRoomC1 with status := .lobby })]

theorem joinRoom_rejoin_resets_witness :
    lookupRoom demoDbC7 "START" = some { demoRoomC1 with status := .lobby } ∧
    ({ demoRoomC1 with status := .lobby } : Room).status = .lobby ∧
    lookupPlayer ({ demoRoomC1 with status := .lobby } : Room).players "host" = some demoPlayer ∧
    ∃ db' room',
      handleJoinQuiz demoDbC7 "START" "host" "Ada2" = (db', none) ∧
      lookupRoom db' "START" = some room' ∧
      lookupPlayer room'.players "host" =
        some { id := "host", name := "Ada2", score := 0, answers := [] } :=
  ⟨by decide, by decide, by decide,
   joinRoom_rejoin_resets demoDbC7 "START" "host" "Ada2"
     { demoRoomC1 with status := .lobby } demoPlayer (by decide) (by decide) (by decide)⟩

/-- Well-formedness of a generated question as the specification states
it: exactly 4 pairwise distinct options and a correct answer equal to
one of them. -/
def wellFormedQuestion (q : Question) : Prop :=
  q.options.length = 4 ∧ q.options.Nodup ∧ q.correctAnswer ∈ q.options

instance (q : Question) : Decidable (wellFormedQuestion q) := by
  unfold wellFormedQuestion; infer_instance

/-- A malformed generated question: its correct answer is not among its
options. -/
def badQuestion : Question :=
  { question := "q", options := ["a", "b", "c", "d"], correctAnswer := "e",
    explanation := "x" }

/-- Claim C5 counterexample: a generator output consisting of one
question whose correct answer is not among its options is accepted by
generateAIQuestions, handleCreateQuiz reports no error, and the room is
created containing the malformed question, contradicting the claim that
such output is rejected with a generation failure before any room is
created. -/
theorem creation_accepts_malformed_counterexample :
    ¬ wellFormedQuestion badQuestion ∧
    badQuestion.correctAnswer ∉ badQuestion.options ∧
    generateAIQuestions (some [badQuestion]) = .ok [badQuestion] ∧
    (handleCreateQuiz [] "ABCDE" (some [badQuestion]) "t" "Easy" 30 "host" "Ada" 0).2 = none ∧
    lookupRoom (handleCreateQuiz [] "ABCDE" (some [badQuestion]) "t" "Easy" 30 "host" "Ada" 0).1
        "ABCDE" =
      some (newQuizRoom "t" "Easy" 30 "host" 0 [badQuestion] "Ada") := by
  refine ⟨by decide, by decide, rfl, by decide, by decide⟩

/-- Claim C5 as amended: room creation fails with a generation error
exactly when the generator output did not parse as an array or parsed
as an empty array; any non-empty parsed list of questions is accepted
with no per-question well-formedness validation. -/
theorem creation_rejects_iff_unparsed_or_empty (db : List (String × Room))
    (newRoomCode : String) (parsedJson : Option (List Question))
    (topic difficulty : String) (timer : Int) (userId hostName : String) (createdAt : Nat) :
    (handleCreateQuiz db newRoomCode parsedJson topic difficulty timer
        userId hostName createdAt).2 = some .generationFailed ↔
      (parsedJson = none ∨ parsedJson = some []) := by
  match parsedJson with
  | none => simp [handleCreateQuiz, generateAIQuestions]
  | some [] => simp [handleCreateQuiz, generateAIQuestions]
  | some (q :: qs) => simp [handleCreateQuiz, generateAIQuestions]

/-- handleStartQuiz from src/App.jsx, lines 273-283: a single updateDoc
setting status to in-progress, with no check of the current status. -/
def handleStartQuiz (r : Room) : Room :=
  { r with status := .inProgress }

/-- The two state-machine operations on a stored room considered by the
specification: startQuiz and submitAnswer.  A submitAnswer operation
carries the calling player, the local question index, the local answers
list, and the submitted answer text; the caller acts on the stored room
as its own snapshot (the sequential case). -/
inductive RoomOp where
  | startQuiz
  | submitAnswer (userId : String) (qIdx : Nat) (userAnswers : List Answer) (answer : String)

/-- One state-machine operation applied to the stored room.  An
out-of-range submitAnswer throws in JS before any write, so it leaves
the document unchanged. -/
def applyOp (r : Room) : RoomOp → Room
  | .startQuiz => handleStartQuiz r
  | .submitAnswer userId qIdx ua answer =>
      match handleAnswerSubmit r r userId qIdx ua answer with
      | some (r', _) => r'
      | none => r

/-- A sequence of state-machine operations applied in order. -/
def applyOps (r : Room) (ops : List RoomOp) : Room :=
  ops.foldl applyOp r

/-- Position of a status along the order lobby, in-progress, finished. -/
def statusRank : Status → Nat
  | .lobby => 0
  | .inProgress => 1
  | .finished => 2

/-- Room states reachable from room creation by state-machine
operations. -/
inductive Reachable : Room → Prop
  | created (topic difficulty : String) (timer : Int) (userId : String)
      (createdAt : Nat) (questions : List Question) (hostName : String) :
      Reachable (newQuizRoom topic difficulty timer userId createdAt questions hostName)
  | step (r : Room) (op : RoomOp) : Reachable r → Reachable (applyOp r op)

/-- Holds when, along the given operation sequence, startQuiz is never
applied to a room whose status is already finished. -/
def noStartAfterFinish : Room → List RoomOp → Bool
  | _, [] => true
  | r, op :: rest =>
      (match op with
       | .startQuiz => !(r.status == .finished)
       | .submitAnswer _ _ _ _ => true) && noStartAfterFinish (applyOp r op) rest

/-- A one-question room as freshly created, used by the C2
counterexample. -/
def roomCreatedC2 : Room := newQuizRoom "math" "Easy" 30 "host" 0 [demoQuestion] "Ada"

/-- The room after the host answers the only (hence last) question:
status is finished. -/
def roomFinishedC2 : Room := applyOp roomCreatedC2 (.submitAnswer "host" 0 [] "4")

/-- Claim C2 counterexample: a reachable room with status finished on
which the startQuiz operation sets the status back to in-progress,
moving it backwards along the order lobby, in-progress, finished;
handleStartQuiz writes in-progress unconditionally. -/
theorem status_monotone_counterexample :
    Reachable roomFinishedC2 ∧
    roomFinishedC2.status = .finished ∧
    (applyOp roomFinishedC2 .startQuiz).status = .inProgress ∧
    statusRank (applyOp roomFinishedC2 .startQuiz).status <
      statusRank roomFinishedC2.status :=
  ⟨Reachable.step roomCreatedC2 (.submitAnswer "host" 0 [] "4")
     (Reachable.created "math" "Easy" 30 "host" 0 [demoQuestion] "Ada"),
   by decide, by decide, by decide⟩

/-- A successful submitAnswer write never lowers the status: it either
keeps the stored status or sets it to finished. -/
theorem handleAnswerSubmit_status (quizData stored : Room) (userId : String)
    (qIdx : Nat) (ua : List Answer) (answer : String) (r : Room) (ua' : List Answer)
    (h : handleAnswerSubmit quizData stored userId qIdx ua answer = some (r, ua')) :
    r.status = stored.status ∨ r.status = .finished := by
  unfold handleAnswerSubmit at h
  match hq : quizData.questions[qIdx]? with
  | none => rw [hq] at h; exact absurd h (by simp)
  | some q =>
      rw [hq] at h
      simp only at h
      by_cases hlt : qIdx < quizData.questions.length - 1
      · rw [if_pos hlt] at h
        obtain ⟨h1, -⟩ := Prod.mk.injEq .. ▸ Option.some.injEq .. ▸ h
        exact Or.inl (h1 ▸ rfl)
      · rw [if_neg hlt] at h
        obtain ⟨h1, -⟩ := Prod.mk.injEq .. ▸ Option.some.injEq .. ▸ h
        exact Or.inr (h1 ▸ rfl)

/-- One guarded operation never lowers the status rank. -/
theorem statusRank_applyOp (r : Room) (op : RoomOp)
    (h : op = .startQuiz → r.status ≠ .finished) :
    statusRank r.status ≤ statusRank (applyOp r op).status := by
  cases op with
  | startQuiz =>
      have := h rfl
      cases hs : r.status with
      | lobby => simp [applyOp, handleStartQuiz, statusRank]
      | inProgress => simp [applyOp, handleStartQuiz, statusRank]
      | finished => exact absurd hs this
  | submitAnswer userId qIdx ua answer =>
      show statusRank r.status ≤ statusRank
        (match handleAnswerSubmit r r userId qIdx ua answer with
         | some (r', _) => r'
         | none => r).status
      match hsub : handleAnswerSubmit r r userId qIdx ua answer with
      | none => exact Nat.le_refl _
      | some (r', ua') =>
          rcases handleAnswerSubmit_status r r userId qIdx ua answer r' ua' hsub with h1 | h1
          · rw [h1]
          · rw [h1]
            cases r.status <;> simp [statusRank]

/-- Claim C2 as amended: along any sequence of startQuiz and
submitAnswer operations in which startQuiz is never applied to an
already finished room (the guard the lobby view of the session
controller is meant to provide), the status never moves backwards along
the order lobby, in-progress, finished; without that guard, startQuiz
applied to a finished room resets its status to in-progress, as the
counterexample shows. -/
theorem status_monotone_amended (r : Room) (ops : List RoomOp)
    (h : noStartAfterFinish r ops = true) :
    statusRank r.status ≤ statusRank (applyOps r ops).status := by
  induction ops generalizing r with
  | nil => exact Nat.le_refl _
  | cons op rest ih =>
      unfold noStartAfterFinish at h
      rw [Bool.and_eq_true] at h
      obtain ⟨h1, h2⟩ := h
      refine Nat.le_trans (statusRank_applyOp r op ?_) (ih (applyOp r op) h2)
      intro hop hst
      subst hop
      rw [hst] at h1
      exact absurd h1 (by decide)

theorem status_monotone_amended_witness :
    noStartAfterFinish roomCreatedC2
      [.startQuiz, .submitAnswer "host" 0 [] "4"] = true ∧
    statusRank roomCreatedC2.status ≤
      statusRank (applyOps roomCreatedC2 [.startQuiz, .submitAnswer "host" 0 [] "4"]).status :=
  ⟨by decide,
   status_monotone_amended roomCreatedC2 [.startQuiz, .submitAnswer "host" 0 [] "4"] (by decide)⟩

/-- The base-36 digit alphabet produced by the JS number-to-string
conversion with radix 36. -/
def base36Digits : List Char := "0123456789abcdefghijklmnopqrstuvwxyz".toList

/-- Uppercase alphanumeric characters, the alphabet the specification
claims for room codes. -/
def upperAlphanumeric : List Char := "0123456789ABCDEFGHIJKLMNOPQRSTUVWXYZ".toList

/-- generateRoomCode from src/App.jsx, lines 31-33, as a function of
the string representation of the random number: the JS expression is
the uppercase of characters 2 to 6 of that representation (substring
with start 2 and end 7).  The representation of a random value in
[0, 1) with radix 36 is the two characters 0. followed by the base-36
fraction digits, with no trailing zero digits; a short fraction (for
example 0.5, printed 0.i) yields fewer than five characters. -/
def generateRoomCode (randomRepr : List Char) : List Char :=
  ((randomRepr.drop 2).take 5).map Char.toUpper

/-- The handleChange handler of JoinQuizPage, src/App.jsx lines
455-458: the entered value is uppercased exactly when the changed field
is the room code field. -/
def joinFormHandleChange (fieldName value : String) : String :=
  if fieldName = "roomCode" then value.toUpper else value

/-- Claim C8 counterexample: the representation 0.i (the radix-36
printing of the possible random value one half) consists of valid
base-36 fraction digits, yet the generated room code has length 1, not
5, contradicting the claim that every generated code has exactly 5
characters. -/
theorem roomCode_length_counterexample :
    (∀ c ∈ ['i'], c ∈ base36Digits) ∧
    generateRoomCode ('0' :: '.' :: ['i']) = ['I'] ∧
    (generateRoomCode ('0' :: '.' :: ['i'])).length ≠ 5 := by
  refine ⟨by decide, by decide, by decide⟩

/-- Uppercasing a base-36 digit lands in the uppercase alphanumeric
alphabet. -/
theorem toUpper_base36 : ∀ c ∈ base36Digits, Char.toUpper c ∈ upperAlphanumeric := by
  decide

/-- Claim C8 as amended: a generated room code always consists of
uppercase alphanumeric characters and has at most 5 of them, with
exactly 5 whenever the base-36 fraction of the random value has at
least 5 digits; and every code entered through the join form is
uppercased before lookup. -/
theorem roomCode_format_amended (ds : List Char)
    (h : ∀ c ∈ ds, c ∈ base36Digits) :
    (generateRoomCode ('0' :: '.' :: ds)).length = min 5 ds.length ∧
    (∀ c ∈ generateRoomCode ('0' :: '.' :: ds), c ∈ upperAlphanumeric) ∧
    (∀ value : String, joinFormHandleChange "roomCode" value = value.toUpper) := by
  refine ⟨?_, ?_, fun value => rfl⟩
  · simp [generateRoomCode]
  · intro c hc
    simp only [generateRoomCode, List.drop_succ_cons, List.drop_zero, List.mem_map] at hc
    obtain ⟨c', hc', rfl⟩ := hc
    exact toUpper_base36 c' (h c' (List.mem_of_mem_take hc'))

theorem roomCode_format_amended_witness :
    (∀ c ∈ "k7q2m9".toList, c ∈ base36Digits) ∧
    ((generateRoomCode ('0' :: '.' :: "k7q2m9".toList)).length = min 5 "k7q2m9".toList.length ∧
     (∀ c ∈ generateRoomCode ('0' :: '.' :: "k7q2m9".toList), c ∈ upperAlphanumeric) ∧
     (∀ value : String, joinFormHandleChange "roomCode" value = value.toUpper)) :=
  ⟨by decide, roomCode_format_amended "k7q2m9".toList (by decide)⟩

/-- Session-controller state of one client on the quiz page, as held in
the App and QuizPage components: the current question index, the local
userAnswers list (the exact payload handleAnswerSubmit passes to
updateDoc for the nested answers field, so after the final
acknowledgement the stored answers sequence of the player equals the
final value of this list), the currently selected option, the finished
flag, the countdown value, whether an interval is installed, and the
queue of question indexes captured by handleAnswerSubmit calls that
are suspended at their awaited updateDoc. -/
structure SessionState where
  currentQuestionIndex : Nat
  userAnswers : List Answer
  selectedAnswer : Option String
  quizFinished : Bool
  timeLeft : Int
  timerActive : Bool
  pending : List Nat
deriving DecidableEq

/-- Synchronous prefix of handleAnswerSubmit (src/App.jsx lines
285-301): up to the awaited updateDoc it builds the answer record for
the current index, sets userAnswers to the appended list (also the
write payload), and suspends, capturing the current question index for
the code after the await.  The index advance, the selection reset and
the finished transition all happen only after the acknowledgement.  An
out-of-range index throws before any update. -/
def startSubmit (questions : List Question) (s : SessionState) (answer : String) :
    SessionState :=
  match questions[s.currentQuestionIndex]? with
  | none => s
  | some currentQuestion =>
    let isCorrect : Bool := answer == currentQuestion.correctAnswer
    let newAnswer : Answer :=
      { questionIndex := s.currentQuestionIndex, answer := answer, isCorrect := isCorrect }
    let updatedAnswers := s.userAnswers ++ [newAnswer]
    { s with userAnswers := updatedAnswers,
             pending := s.pending ++ [s.currentQuestionIndex] }

/-- Resumption of the oldest suspended handleAnswerSubmit call when its
updateDoc acknowledgement arrives (src/App.jsx lines 303-310): on a
non-last captured index it increments the current index (the code uses
a functional update of the current value) and clears the selection; on
the last index it performs the status write and sets the finished flag,
unmounting QuizPage, whose effect cleanup clears the interval. -/
def resolveSubmit (questions : List Question) (s : SessionState) : SessionState :=
  match s.pending with
  | [] => s
  | idx :: rest =>
      if idx < questions.length - 1 then
        { s with pending := rest, currentQuestionIndex := s.currentQuestionIndex + 1,
                 selectedAnswer := none }
      else
        { s with pending := rest, quizFinished := true, timerActive := false }

/-- Events of the client event loop on the quiz page: a click on an
option button, a click on the submit button, a one-second interval
tick, a run of the countdown effect, and the acknowledgement of an
awaited updateDoc.  The countdown effect (src/App.jsx lines 541-557)
is keyed on currentQuestionIndex, quizData and the submit callback,
which is re-created on every render, so the effect re-runs not only
when the index changes but after any snapshot delivery or state
update: its cleanup clears the previous interval and its body resets
the countdown to the configured timer and installs a fresh interval
for the unchanged index.  Snapshots arrive at arbitrary times, so an
effectRun event may occur at any point while the page is mounted. -/
inductive SessionEvent where
  | select (option : String)
  | clickSubmit
  | tick
  | effectRun
  | resolve
deriving DecidableEq

/-- One event handled on the single cooperative event loop.  A tick
(lines 545-554) decrements the countdown and, at 1 or below, clears
its own interval and runs the synchronous prefix of the no-answer
auto-submission; handleButtonClick (lines 559-563) starts a submission
only when an option is selected, the button being disabled otherwise;
effectRun restarts the countdown; resolve resumes the oldest suspended
submission.  Once the quiz has locally finished QuizPage is unmounted
and no further page events are delivered. -/
def sessionStep (questions : List Question) (timer : Int) (s : SessionState) :
    SessionEvent → SessionState
  | .select o => if s.quizFinished then s else { s with selectedAnswer := some o }
  | .clickSubmit =>
      if s.quizFinished then s
      else
        match s.selectedAnswer with
        | some answer => startSubmit questions s answer
        | none => s
  | .tick =>
      if s.quizFinished || !s.timerActive then s
      else if s.timeLeft ≤ 1 then
        startSubmit questions { s with timerActive := false, timeLeft := 0 } "No Answer"
      else { s with timeLeft := s.timeLeft - 1 }
  | .effectRun =>
      if s.quizFinished then s
      else { s with timerActive := true, timeLeft := timer }
  | .resolve => resolveSubmit questions s

/-- The state when the in-progress snapshot mounts the quiz page:
index 0, no answers, no selection, countdown seeded from the
configured timer, interval installed, nothing in flight. -/
def initSessionState (timer : Int) : SessionState :=
  { currentQuestionIndex := 0, userAnswers := [], selectedAnswer := none,
    quizFinished := false, timeLeft := timer, timerActive := true, pending := [] }

/-- A sequence of session events handled in order. -/
def runSession (questions : List Question) (timer : Int) (s : SessionState)
    (events : List SessionEvent) : SessionState :=
  events.foldl (sessionStep questions timer) s

/-- Question list used by the C9 counterexample and witness: two
questions, so index 0 is not the last index. -/
def demoQuestionsC9 : List Question := [demoQuestion, demoQuestion]

/-- Claim C9 counterexample: with a one-second timer, the countdown
expires and auto-submits the sentinel for question 0; the resulting
state update re-renders the App and re-runs the countdown effect (the
same re-run is triggered by any snapshot delivery), which restarts the
interval for the same index while the submission is still awaiting its
updateDoc acknowledgement; the restarted countdown expires again and
auto-submits a second sentinel for the same index.  The local question
index never changed, yet two auto-submissions occurred for it, and the
answers list (the exact payload written to the stored answers field)
holds two entries with question index 0, contradicting the
exactly-once and at-most-one-entry-per-index claim. -/
theorem quizPage_double_auto_submit_counterexample :
    (runSession demoQuestionsC9 1 (initSessionState 1)
        [.tick, .effectRun, .tick]).currentQuestionIndex = 0 ∧
    (runSession demoQuestionsC9 1 (initSessionState 1)
        [.tick, .effectRun, .tick]).userAnswers =
      [{ questionIndex := 0, answer := "No Answer", isCorrect := false },
       { questionIndex := 0, answer := "No Answer", isCorrect := false }] ∧
    ¬ ((runSession demoQuestionsC9 1 (initSessionState 1)
        [.tick, .effectRun, .tick]).userAnswers.map Answer.questionIndex).Nodup := by
  refine ⟨by decide, by decide, by decide⟩

/-- The synchronous prefix of a submission at an in-range index appends
exactly the one new answer record. -/
theorem startSubmit_answers (questions : List Question) (s : SessionState)
    (answer : String) (q : Question)
    (hq : questions[s.currentQuestionIndex]? = some q) :
    (startSubmit questions s answer).userAnswers =
      s.userAnswers ++ [{ questionIndex := s.currentQuestionIndex, answer := answer,
                          isCorrect := answer == q.correctAnswer }] := by
  unfold startSubmit
  rw [hq]

/-- The synchronous prefix of a submission never touches the interval:
while the submission is in flight the countdown stays exactly as the
firing tick left it. -/
theorem startSubmit_timerActive (questions : List Question) (s : SessionState)
    (answer : String) :
    (startSubmit questions s answer).timerActive = s.timerActive := by
  unfold startSubmit
  cases questions[s.currentQuestionIndex]? <;> rfl

/-- On an unfinished page, a tick above the threshold only decrements
the countdown. -/
theorem sessionStep_tick_dec (questions : List Question) (timer : Int) (s : SessionState)
    (hf : s.quizFinished = false) (hact : s.timerActive = true) (hgt : ¬ s.timeLeft ≤ 1) :
    sessionStep questions timer s .tick = { s with timeLeft := s.timeLeft - 1 } := by
  simp [sessionStep, hf, hact, hgt]

/-- On an unfinished page, a tick at or below the threshold clears the
interval and starts the sentinel submission. -/
theorem sessionStep_tick_fire (questions : List Question) (timer : Int) (s : SessionState)
    (hf : s.quizFinished = false) (hact : s.timerActive = true) (hle : s.timeLeft ≤ 1) :
    sessionStep questions timer s .tick =
      startSubmit questions { s with timerActive := false, timeLeft := 0 } "No Answer" := by
  simp [sessionStep, hf, hact, hle]

/-- On an unfinished page, an option click only records the selection. -/
theorem sessionStep_select (questions : List Question) (timer : Int) (s : SessionState)
    (o : String) (hf : s.quizFinished = false) :
    sessionStep questions timer s (.select o) = { s with selectedAnswer := some o } := by
  simp [sessionStep, hf]

/-- On an unfinished page with a selected option, the submit button
starts the submission. -/
theorem sessionStep_clickSubmit_some (questions : List Question) (timer : Int)
    (s : SessionState) (answer : String) (hf : s.quizFinished = false)
    (hsel : s.selectedAnswer = some answer) :
    sessionStep questions timer s .clickSubmit = startSubmit questions s answer := by
  simp [sessionStep, hf, hsel]

/-- On an unfinished page, an effect run restarts the countdown. -/
theorem sessionStep_effectRun (questions : List Question) (timer : Int) (s : SessionState)
    (hf : s.quizFinished = false) :
    sessionStep questions timer s .effectRun =
      { s with timerActive := true, timeLeft := timer } := by
  simp [sessionStep, hf]

/-- Running the countdown out with no other events performs exactly one
auto-submission: the earlier ticks only decrement, and the firing tick
clears the interval and starts the single sentinel submission. -/
theorem runSession_ticks_auto_submit (questions : List Question) (timer : Int)
    (s : SessionState) (t : Nat)
    (hfin : s.quizFinished = false) (hact : s.timerActive = true)
    (ht : s.timeLeft = (t : Int)) (ht1 : 1 ≤ t) :
    runSession questions timer s (List.replicate t .tick) =
      startSubmit questions { s with timerActive := false, timeLeft := 0 } "No Answer" := by
  induction t generalizing s with
  | zero => omega
  | succ n ih =>
      by_cases hn : n = 0
      · subst hn
        have hle : s.timeLeft ≤ 1 := by rw [ht]; norm_num
        show sessionStep questions timer s .tick = _
        rw [sessionStep_tick_fire questions timer s hfin hact hle]
      · have hgt : ¬ s.timeLeft ≤ 1 := by rw [ht]; push_cast; omega
        show runSession questions timer (sessionStep questions timer s .tick)
            (List.replicate n .tick) = _
        rw [sessionStep_tick_dec questions timer s hfin hact hgt]
        exact ih { s with timeLeft := s.timeLeft - 1 } hfin hact
          (show s.timeLeft - 1 = (n : Int) by rw [ht]; push_cast; omega) (by omega)

/-- An acknowledgement never appends an answer and never re-installs
the interval. -/
theorem resolveSubmit_quiet (questions : List Question) (s : SessionState) :
    (resolveSubmit questions s).userAnswers = s.userAnswers ∧
    (s.timerActive = false → (resolveSubmit questions s).timerActive = false) := by
  cases hp : s.pending with
  | nil => simp [resolveSubmit, hp]
  | cons idx rest =>
      by_cases hlt : idx < questions.length - 1 <;> simp [resolveSubmit, hp, hlt]

/-- While the interval is cleared, any sequence consisting only of
ticks and acknowledgements performs no further submission: a new
submission requires the effect to re-install the countdown or a manual
click. -/
theorem runSession_quiet (questions : List Question) (timer : Int) (s : SessionState)
    (events : List SessionEvent)
    (hact : s.timerActive = false)
    (hquiet : ∀ e ∈ events, e = SessionEvent.tick ∨ e = SessionEvent.resolve) :
    (runSession questions timer s events).userAnswers = s.userAnswers := by
  induction events generalizing s with
  | nil => rfl
  | cons e rest ih =>
      have hrest : ∀ x ∈ rest, x = SessionEvent.tick ∨ x = SessionEvent.resolve :=
        fun x hx => hquiet x (List.mem_cons_of_mem e hx)
      rcases hquiet e (List.mem_cons_self e rest) with rfl | rfl
      · have hstep : sessionStep questions timer s .tick = s := by
          simp [sessionStep, hact]
        show (runSession questions timer (sessionStep questions timer s .tick)
            rest).userAnswers = _
        rw [hstep]
        exact ih s hact hrest
      · show (runSession questions timer (resolveSubmit questions s) rest).userAnswers = _
        rw [ih (resolveSubmit questions s) ((resolveSubmit_quiet questions s).2 hact) hrest]
        exact (resolveSubmit_quiet questions s).1

/-- A sorted list of naturals stays sorted when an upper bound of its
members is appended. -/
theorem pairwise_append_le (l : List Nat) (n : Nat)
    (h1 : l.Pairwise (· ≤ ·)) (h2 : ∀ x ∈ l, x ≤ n) :
    (l ++ [n]).Pairwise (· ≤ ·) := by
  rw [List.pairwise_append]
  refine ⟨h1, List.pairwise_singleton _ _, ?_⟩
  intro a ha b hb
  rw [List.mem_singleton] at hb
  subst hb
  exact h2 a ha

/-- Invariant of the session state: recorded question indexes are
nondecreasing and never exceed the current index. -/
def answersMonotone (s : SessionState) : Prop :=
  (s.userAnswers.map Answer.questionIndex).Pairwise (· ≤ ·) ∧
  ∀ a ∈ s.userAnswers, a.questionIndex ≤ s.currentQuestionIndex

/-- A submission prefix preserves the monotonicity invariant: it
appends the current index, an upper bound of all recorded indexes. -/
theorem answersMonotone_startSubmit (questions : List Question) (s : SessionState)
    (answer : String) (hinv : answersMonotone s) :
    answersMonotone (startSubmit questions s answer) := by
  obtain ⟨h1, h2⟩ := hinv
  unfold startSubmit
  match hq : questions[s.currentQuestionIndex]? with
  | none => exact ⟨h1, h2⟩
  | some q =>
      simp only
      constructor
      · have hbound : ∀ x ∈ s.userAnswers.map Answer.questionIndex,
            x ≤ s.currentQuestionIndex := by
          intro x hx
          rw [List.mem_map] at hx
          obtain ⟨a, ha, rfl⟩ := hx
          exact h2 a ha
        simpa [List.map_append] using
          pairwise_append_le (s.userAnswers.map Answer.questionIndex)
            s.currentQuestionIndex h1 hbound
      · intro a ha
        rw [List.mem_append] at ha
        rcases ha with ha | ha
        · exact h2 a ha
        · rw [List.mem_singleton] at ha
          subst ha
          exact Nat.le_refl _

/-- Every handled event preserves the monotonicity invariant. -/
theorem answersMonotone_step (questions : List Question) (timer : Int) (s : SessionState)
    (e : SessionEvent) (hinv : answersMonotone s) :
    answersMonotone (sessionStep questions timer s e) := by
  cases e with
  | select o =>
      cases hf : s.quizFinished with
      | true => simpa [sessionStep, hf] using hinv
      | false =>
          rw [sessionStep_select questions timer s o hf]
          exact ⟨hinv.1, hinv.2⟩
  | clickSubmit =>
      cases hf : s.quizFinished with
      | true => simpa [sessionStep, hf] using hinv
      | false =>
          cases hsel : s.selectedAnswer with
          | none => simpa [sessionStep, hf, hsel] using hinv
          | some answer =>
              rw [sessionStep_clickSubmit_some questions timer s answer hf hsel]
              exact answersMonotone_startSubmit questions s answer hinv
  | tick =>
      cases hf : s.quizFinished with
      | true => simpa [sessionStep, hf] using hinv
      | false =>
          cases hact : s.timerActive with
          | false => simpa [sessionStep, hf, hact] using hinv
          | true =>
              by_cases hle : s.timeLeft ≤ 1
              · rw [sessionStep_tick_fire questions timer s hf hact hle]
                exact answersMonotone_startSubmit questions
                  { s with timerActive := false, timeLeft := 0 } "No Answer"
                  ⟨hinv.1, hinv.2⟩
              · rw [sessionStep_tick_dec questions timer s hf hact hle]
                exact ⟨hinv.1, hinv.2⟩
  | effectRun =>
      cases hf : s.quizFinished with
      | true => simpa [sessionStep, hf] using hinv
      | false =>
          rw [sessionStep_effectRun questions timer s hf]
          exact ⟨hinv.1, hinv.2⟩
  | resolve =>
      show answersMonotone (resolveSubmit questions s)
      cases hp : s.pending with
      | nil => simpa [resolveSubmit, hp] using hinv
      | cons idx rest =>
          by_cases hlt : idx < questions.length - 1
          · rw [show resolveSubmit questions s =
                { s with pending := rest,
                         currentQuestionIndex := s.currentQuestionIndex + 1,
                         selectedAnswer := none } from by simp [resolveSubmit, hp, hlt]]
            exact ⟨hinv.1, fun a ha => Nat.le_succ_of_le (hinv.2 a ha)⟩
          · rw [show resolveSubmit questions s =
                { s with pending := rest, quizFinished := true,
                         timerActive := false } from by simp [resolveSubmit, hp, hlt]]
            exact ⟨hinv.1, hinv.2⟩

/-- The monotonicity invariant holds after any event sequence. -/
theorem answersMonotone_run (questions : List Question) (timer : Int) (s : SessionState)
    (events : List SessionEvent) (hinv : answersMonotone s) :
    answersMonotone (runSession questions timer s events) := by
  induction events generalizing s with
  | nil => exact hinv
  | cons e rest ih =>
      exact ih (sessionStep questions timer s e)
        (answersMonotone_step questions timer s e hinv)

/-- Claim C9 as amended: the firing tick clears its own interval, so a
single installation of the countdown auto-submits the no-answer
sentinel exactly once, and while the interval is cleared no further
submission occurs under ticks and acknowledgements alone; but because
the countdown effect re-runs on every snapshot delivery or re-render,
not only on index change, and the question index advances only after
the awaited updateDoc resolves, a restarted countdown can auto-submit
the sentinel again for the same index while a submission is in flight
(see the counterexample), so the answers sequence can hold several
entries for one question index; what always holds instead is that the
recorded question indexes are nondecreasing. -/
theorem quizPage_auto_submit_per_restart
    (questions : List Question) (timer : Int) (s s2 : SessionState) (t : Nat) (q : Question)
    (quietEvents allEvents : List SessionEvent)
    (hfin : s.quizFinished = false) (hact : s.timerActive = true)
    (ht : s.timeLeft = (t : Int)) (ht1 : 1 ≤ t)
    (hq : questions[s.currentQuestionIndex]? = some q)
    (hs2 : s2.timerActive = false)
    (hquiet : ∀ e ∈ quietEvents, e = SessionEvent.tick ∨ e = SessionEvent.resolve) :
    ((runSession questions timer s (List.replicate t .tick)).userAnswers =
        s.userAnswers ++ [{ questionIndex := s.currentQuestionIndex, answer := "No Answer",
                            isCorrect := "No Answer" == q.correctAnswer }] ∧
     (runSession questions timer s (List.replicate t .tick)).timerActive = false) ∧
    (runSession questions timer s2 quietEvents).userAnswers = s2.userAnswers ∧
    ((runSession questions timer (initSessionState timer) allEvents).userAnswers.map
        Answer.questionIndex).Pairwise (· ≤ ·) := by
  refine ⟨⟨?_, ?_⟩, ?_, ?_⟩
  · rw [runSession_ticks_auto_submit questions timer s t hfin hact ht ht1]
    exact startSubmit_answers questions
      { s with timerActive := false, timeLeft := 0 } "No Answer" q hq
  · rw [runSession_ticks_auto_submit questions timer s t hfin hact ht ht1]
    exact (startSubmit_timerActive questions
      { s with timerActive := false, timeLeft := 0 } "No Answer").trans rfl
  · exact runSession_quiet questions timer s2 quietEvents hs2 hquiet
  · exact (answersMonotone_run questions timer (initSessionState timer) allEvents
      ⟨List.Pairwise.nil, fun a ha => absurd ha (List.not_mem_nil a)⟩).1

/-- A session state with the interval cleared and one submission in
flight, used by the C9 witness for the quiescence clause. -/
def demoInactiveSession : SessionState :=
  { currentQuestionIndex := 0, userAnswers := [], selectedAnswer := none,
    quizFinished := false, timeLeft := 0, timerActive := false, pending := [0] }

theorem quizPage_auto_submit_per_restart_witness :
    ((runSession demoQuestionsC9 2 (initSessionState 2)
        (List.replicate 2 .tick)).userAnswers =
        (initSessionState 2).userAnswers ++
          [{ questionIndex := (initSessionState 2).currentQuestionIndex,
             answer := "No Answer",
             isCorrect := "No Answer" == demoQuestion.correctAnswer }] ∧
     (runSession demoQuestionsC9 2 (initSessionState 2)
        (List.replicate 2 .tick)).timerActive = false) ∧
    (runSession demoQuestionsC9 2 demoInactiveSession
        [.tick, .resolve, .tick]).userAnswers = demoInactiveSession.userAnswers ∧
    ((runSession demoQuestionsC9 2 (initSessionState 2)
        [.tick, .tick, .effectRun, .tick, .tick, .resolve]).userAnswers.map
        Answer.questionIndex).Pairwise (· ≤ ·) :=
  quizPage_auto_submit_per_restart demoQuestionsC9 2 (initSessionState 2)
    demoInactiveSession 2 demoQuestion [.tick, .resolve, .tick]
    [.tick, .tick, .effectRun, .tick, .tick, .resolve]
    rfl rfl (by decide) (by decide) (by decide) rfl (by decide)
